import Mathlib

/-!
Shallow embedding of the scene-interaction and grass-instancing core of the
`pwazta/vincentxian.com` repository, together with proofs of the spec claims.

Embedded sources:
* `sceneInteractions` (pattern tables, `classifyObject`, `getClickActionName`)
* `sceneObjectSetup` (`createHitbox` metadata capture)
* `useObjectInteractions.ts` (click handler, hover frame loop, `getGroupMetas`,
  `playHoverAnimation`)
* `useSceneRaycaster` (pointer state / re-enable suppression)
* `GrassField.tsx` (setup effect with the scale-parameter cache)

JavaScript strings are Lean `String`s; `String.prototype.includes` is embedded
as `strIncludes` below.  Mutable `THREE.Vector3` objects are modelled by cells
of an explicit store (`VStore`), so that clone-versus-mutate behaviour is
preserved; object identity of meshes and GPU resources is modelled by natural
number ids drawn from an allocation counter.
-/

/-- Model of checking whether the character list `pat` occurs at the head of
`l` (the prefix test underlying JavaScript substring search). -/
def charsLead : List Char → List Char → Bool
  | [], _ => true
  | _ :: _, [] => false
  | a :: as, b :: bs => a == b && charsLead as bs

/-- Model of occurrence of `pat` anywhere inside `l`. -/
def charsOccur (pat : List Char) : List Char → Bool
  | [] => charsLead pat []
  | l@(_ :: rest) => charsLead pat l || charsOccur pat rest

/-- Embedding of JavaScript `s.includes(pat)`: case-sensitive substring test. -/
def strIncludes (s pat : String) : Bool :=
  charsOccur pat.data s.data

/-- Interaction type of a scene object (`sceneInteractions`). -/
inductive InteractionType where
  | hoverable
  | clickable
  | none
deriving DecidableEq, Repr

/-- Name patterns that identify hoverable objects (`HOVERABLE_PATTERNS`). -/
def HOVERABLE_PATTERNS : List String :=
  ["computer", "disk", "phone", "button", "pCube", "cabinet_drawer"]

/-- Name patterns that identify clickable objects (`CLICKABLE_PATTERNS`). -/
def CLICKABLE_PATTERNS : List String :=
  ["phone", "disk_linkedin", "disk_github", "computer",
   "cabinet_drawer_about", "cabinet_drawer_software", "cabinet_drawer_arts"]

/-- Embedding of `isHoverable`: some hoverable pattern occurs in the name. -/
def isHoverable (name : String) : Bool :=
  HOVERABLE_PATTERNS.any (fun pattern => strIncludes name pattern)

/-- Embedding of `isClickable`: some clickable pattern occurs in the name. -/
def isClickable (name : String) : Bool :=
  CLICKABLE_PATTERNS.any (fun pattern => strIncludes name pattern)

/-- Embedding of `classifyObject`: clickable patterns take priority, then
hoverable patterns, otherwise `none`. -/
def classifyObject (name : String) : InteractionType :=
  if isClickable name then InteractionType.clickable
  else if isHoverable name then InteractionType.hoverable
  else InteractionType.none

/-- Keys of the `ClickActions` record (`sceneInteractions`). -/
inductive ClickActionKey where
  | onPhoneClick
  | onComputerClick
  | onScreenClick
  | onDiskLinkedInClick
  | onDiskGithubClick
  | onDrawerAboutClick
  | onDrawerSoftwareClick
  | onDrawerArtsClick
deriving DecidableEq, Repr

def patPhone : String := "phone"
def patDiskLinkedin : String := "disk_linkedin"
def patDiskGithub : String := "disk_github"
def patComputerScreen : String := "computer_screen"
def patComputer : String := "computer"
def patDrawerAbout : String := "cabinet_drawer_about"
def patDrawerSoftware : String := "cabinet_drawer_software"
def patDrawerArts : String := "cabinet_drawer_arts"

/-- Embedding of `getClickActionName`: first matching substring in declaration
order wins (`computer_screen` is tested before `computer`). -/
def getClickActionName (name : String) : Option ClickActionKey :=
  if strIncludes name patPhone then some ClickActionKey.onPhoneClick
  else if strIncludes name patDiskLinkedin then some ClickActionKey.onDiskLinkedInClick
  else if strIncludes name patDiskGithub then some ClickActionKey.onDiskGithubClick
  else if strIncludes name patComputerScreen then some ClickActionKey.onScreenClick
  else if strIncludes name patComputer then some ClickActionKey.onComputerClick
  else if strIncludes name patDrawerAbout then some ClickActionKey.onDrawerAboutClick
  else if strIncludes name patDrawerSoftware then some ClickActionKey.onDrawerSoftwareClick
  else if strIncludes name patDrawerArts then some ClickActionKey.onDrawerArtsClick
  else Option.none

/-! ## Vector store: mutable `THREE.Vector3` cells -/

/-- Value of a three-component vector; components are rationals (JavaScript
numbers in the source, used here with the exact constants of the code). -/
structure V3 where
  x : ℚ
  y : ℚ
  z : ℚ
deriving DecidableEq, Repr

def V3.add (a b : V3) : V3 := ⟨a.x + b.x, a.y + b.y, a.z + b.z⟩

def V3.sub (a b : V3) : V3 := ⟨a.x - b.x, a.y - b.y, a.z - b.z⟩

/-- Embedding of `v.multiplyScalar(k)` as a value operation. -/
def V3.smul (k : ℚ) (a : V3) : V3 := ⟨k * a.x, k * a.y, k * a.z⟩

/-- Store of live `THREE.Vector3` objects; a reference is an index into the
store, so that in-place mutation and `.clone()` allocation are distinguishable. -/
abbrev VStore := List V3

def readV (s : VStore) (r : Nat) : V3 := s.getD r ⟨0, 0, 0⟩

def writeV (s : VStore) (r : Nat) (v : V3) : VStore := s.set r v

/-- Allocation of a fresh vector object (`new THREE.Vector3(...)`). -/
def allocV (s : VStore) (v : V3) : VStore × Nat := (s ++ [v], s.length)

/-- Embedding of `ref.clone()`: allocates a fresh cell with the same value. -/
def cloneV (s : VStore) (r : Nat) : VStore × Nat := allocV s (readV s r)

/-- Embedding of `dst.add(v)` for a fresh right-hand vector value. -/
def vaddInto (s : VStore) (dst : Nat) (v : V3) : VStore :=
  writeV s dst (V3.add (readV s dst) v)

/-- Embedding of `dst.sub(src)` where `src` is another live vector object. -/
def vsubIntoRef (s : VStore) (dst src : Nat) : VStore :=
  writeV s dst (V3.sub (readV s dst) (readV s src))

/-- Embedding of `dst.multiplyScalar(k)`. -/
def vmulInto (s : VStore) (dst : Nat) (k : ℚ) : VStore :=
  writeV s dst (V3.smul k (readV s dst))

/-! ## Scene meshes, interaction metadata, click dispatch -/

/-- Embedding of the `HoverMetadata` record attached to hitbox meshes.
`objId` models the identity of `originalObject`; `initialScale` and
`initialPosition` are references into the vector store (the vectors cloned at
classification time by `createHitbox`). -/
structure HoverMetadata where
  objId : Nat
  objName : String
  initialScale : Nat
  initialPosition : Nat
  interactionType : InteractionType
deriving DecidableEq, Repr

/-- Embedding of a hitbox mesh as stored in `interactiveMeshes`.  `meshId`
models JavaScript object identity (each hitbox is allocated once); `name` is
the hitbox name (`"hitbox_" ++ original name` in `createHitbox`); `metadata`
is `userData.metadata`, `Option`-valued because the code probes it with
`as HoverMetadata | undefined`. -/
structure HMesh where
  meshId : Nat
  name : String
  metadata : Option HoverMetadata
deriving DecidableEq, Repr

/-- Observable effect of the click handler. -/
inductive ClickEffect where
  | openURL (url : String)
  | invoke (k : ClickActionKey)
deriving DecidableEq, Repr

def linkedinURL : String := "https://www.linkedin.com/in/vincent-xian/"
def githubURL : String := "https://github.com/pwazta"

/-- Embedding of `handleClick` in `useObjectInteractions`: the argument is the
current hit-test result (`intersectsRef.current`, nearest hit first); the
result is the list of performed effects, in order.  The registry supplies every
hitbox with a total `ClickActions` record, so the truthiness test
`clickActions[actionName]` in the source always succeeds; a silent no-op is the
empty effect list. -/
def handleClick (currentIntersects : List HMesh) : List ClickEffect :=
  match currentIntersects with
  | [] => []
  | clickedMesh :: _ =>
    match clickedMesh.metadata with
    | Option.none => []
    | some metadata =>
      if metadata.interactionType ≠ InteractionType.clickable then []
      else
        let objectName := clickedMesh.name
        if strIncludes objectName patDiskLinkedin then [ClickEffect.openURL linkedinURL]
        else if strIncludes objectName patDiskGithub then [ClickEffect.openURL githubURL]
        else
          match getClickActionName objectName with
          | some actionName => [ClickEffect.invoke actionName]
          | Option.none => []

/-- Discrete activate inputs handled by the dispatcher: `handleTouchEnd` calls
`preventDefault()` and then `handleClick`, so both input kinds share one path. -/
inductive ActivateInput where
  | pointerClick
  | touchEnd
deriving DecidableEq, Repr

/-- Uniform dispatch of a discrete activate input (`click` and `touchend`
listeners of `useObjectInteractions`). -/
def dispatchActivate (i : ActivateInput) (currentIntersects : List HMesh) : List ClickEffect :=
  match i with
  | ActivateInput.pointerClick => handleClick currentIntersects
  | ActivateInput.touchEnd => handleClick currentIntersects

/-! ## Hover frame loop (`useObjectInteractions` useFrame body) -/

def patComputerGroup : String := "computer_"
def patPhoneBase : String := "phone_base"
def patPhoneGroup : String := "phone_"
def patCabinetDrawer : String := "cabinet_drawer_"
def patPCube : String := "pCube"

/-- Delay before unhovering, in milliseconds (`HOVER_UNHOVER_DELAY_MS`). -/
def HOVER_UNHOVER_DELAY_MS : Nat := 100

/-- Embedding of the local helper `findGroup` of `getGroupMetas`: all metadata
records of registry meshes whose (hitbox) name contains the pattern. -/
def findGroup (interactiveMeshes : List HMesh) (pattern : String) : List HoverMetadata :=
  interactiveMeshes.filterMap (fun mesh =>
    match mesh.metadata with
    | some m => if strIncludes mesh.name pattern then some m else Option.none
    | Option.none => Option.none)

/-- Embedding of `getGroupMetas`: `computer_*` parts group together,
`phone_base` pulls in all `phone_*` parts (one-way), everything else is a
singleton group.  The hovered name tested is `meta.originalObject.name`. -/
def getGroupMetas (interactiveMeshes : List HMesh) : Option HoverMetadata → List HoverMetadata
  | Option.none => []
  | some meta =>
    let name := meta.objName
    if strIncludes name patComputerGroup then findGroup interactiveMeshes patComputerGroup
    else if strIncludes name patPhoneBase then findGroup interactiveMeshes patPhoneGroup
    else [meta]

/-- Start of a hover animation, one per `playHoverAnimation` call of the frame
loop, keyed by the identity of the animated original object. -/
inductive AnimEvent where
  | enterStart (objId : Nat)
  | exitStart (objId : Nat)
deriving DecidableEq, Repr

/-- State of the hover frame loop: `hoveredMesh` is `hoveredMeshRef.current`;
`pendingUnhover` is the scheduled unhover timeout together with the `prevMesh`
value captured by its closure and its deadline in milliseconds. -/
structure HoverFrameState where
  hoveredMesh : Option HMesh
  pendingUnhover : Option (HMesh × Nat)
deriving DecidableEq, Repr

def exitEventsFor (metas : List HoverMetadata) : List AnimEvent :=
  metas.map (fun m => AnimEvent.exitStart m.objId)

def enterEventsFor (metas : List HoverMetadata) : List AnimEvent :=
  metas.map (fun m => AnimEvent.enterStart m.objId)

/-- Embedding of one execution of the `useFrame` hover callback with
`enabled = true`.  `intersects` is the current raycast result; the hovered mesh
is `intersects[0].object`.  Cursor updates, accent colors and the stored
`userData` world position are not modelled (no claim concerns them); the
returned list records the `playHoverAnimation` calls made during the frame. -/
def hoverFrame (reg : List HMesh) (s : HoverFrameState) (now : Nat)
    (intersects : List HMesh) : HoverFrameState × List AnimEvent :=
  let hoveredMesh : Option HMesh := intersects.head?
  let prevMesh := s.hoveredMesh
  if hoveredMesh = prevMesh then
    (s, [])
  else
    let s1 : HoverFrameState :=
      if hoveredMesh.isSome ∧ s.pendingUnhover.isSome then
        { s with pendingUnhover := Option.none }
      else s
    match hoveredMesh with
    | some hm =>
      match hm.metadata with
      | some metadata =>
        let prevEvents := exitEventsFor (getGroupMetas reg (prevMesh.bind HMesh.metadata))
        let newEvents := enterEventsFor (getGroupMetas reg (some metadata))
        ({ s1 with hoveredMesh := some hm }, prevEvents ++ newEvents)
      | Option.none => (s1, [])
    | Option.none =>
      match prevMesh with
      | some pm =>
        if s1.pendingUnhover.isNone then
          ({ s1 with pendingUnhover := some (pm, now + HOVER_UNHOVER_DELAY_MS) }, [])
        else (s1, [])
      | Option.none => (s1, [])

/-- Embedding of the scheduled unhover timeout callback: compares the captured
`prevMesh` against `hoveredMeshRef.current` by object identity and, on a match,
plays the exit animation for the whole group and clears the hover state. -/
def fireUnhover (reg : List HMesh) (s : HoverFrameState) : HoverFrameState × List AnimEvent :=
  match s.pendingUnhover with
  | Option.none => (s, [])
  | some (prevMesh, _) =>
    match s.hoveredMesh with
    | some stillPrevMesh =>
      if stillPrevMesh = prevMesh then
        (⟨Option.none, Option.none⟩, exitEventsFor (getGroupMetas reg stillPrevMesh.metadata))
      else ({ s with pendingUnhover := Option.none }, [])
    | Option.none => ({ s with pendingUnhover := Option.none }, [])

/-- One frame tick at time `now`: the host timer fires a due unhover timeout
before the frame callback runs, then the frame body executes. -/
def hoverTick (reg : List HMesh) (s : HoverFrameState) (now : Nat)
    (intersects : List HMesh) : HoverFrameState × List AnimEvent :=
  let fired :=
    match s.pendingUnhover with
    | some (_, deadline) => if deadline ≤ now then fireUnhover reg s else (s, [])
    | Option.none => (s, [])
  let stepped := hoverFrame reg fired.1 now intersects
  (stepped.1, fired.2 ++ stepped.2)

/-- Run of the frame loop over a timed trace of raycast results. -/
def hoverRun (reg : List HMesh) (s : HoverFrameState) :
    List (Nat × List HMesh) → HoverFrameState × List AnimEvent
  | [] => (s, [])
  | (now, intersects) :: rest =>
    let st := hoverTick reg s now intersects
    let r := hoverRun reg st.1 rest
    (r.1, st.2 ++ r.2)

/-! ## Animation controller (`playHoverAnimation`) over the vector store -/

def HOVER_SCALE : ℚ := 108 / 100

def HOVER_OVEREXTEND_SCALE : ℚ := 115 / 100

/-- Distance to slide a drawer outward (`DRAWER_SLIDE_DISTANCE`). -/
def DRAWER_SLIDE_DISTANCE : ℚ := 100

/-- Transform channel targeted by a gsap tween in `playHoverAnimation`. -/
inductive Channel where
  | position
  | scale
deriving DecidableEq, Repr

/-- One emitted tween: gsap captures the numeric targets at call time, so the
target is a vector value, not a reference. -/
structure Tween where
  channel : Channel
  target : V3
deriving DecidableEq, Repr

/-- Embedding of `playHoverAnimation`.  `objName` is `originalObject.name`;
`initialScale`/`initialPosition` are the metadata vector references passed in;
`isMeshWithGeometry` models `originalObject instanceof THREE.Mesh &&
originalObject.geometry`; `bbCenter` is the value written into `localCenter` by
`boundingBox.getCenter` (`Option.none` models a `null` bounding box).  The
result is the updated vector store and the emitted tweens in start order;
`killTweensOf`, easing and durations are not modelled (no claim concerns them). -/
def playHoverAnimation (s : VStore) (objName : String)
    (initialScale initialPosition : Nat) (isHovering : Bool)
    (isMeshWithGeometry : Bool) (bbCenter : Option V3) : VStore × List Tween :=
  let isDrawer := strIncludes objName patCabinetDrawer
  let isPCube := strIncludes objName patPCube
  if isDrawer then
    if isHovering then
      let slideDirection : V3 := ⟨0, 0, DRAWER_SLIDE_DISTANCE⟩
      let c := cloneV s initialPosition
      let s2 := vaddInto c.1 c.2 slideDirection
      (s2, [⟨Channel.position, readV s2 c.2⟩])
    else
      (s, [⟨Channel.position, readV s initialPosition⟩])
  else if isPCube then
    if isHovering then
      let c := cloneV s initialPosition
      let s2 := vaddInto c.1 c.2 ⟨0, -33 / 10, 0⟩
      (s2, [⟨Channel.position, readV s2 c.2⟩])
    else
      (s, [⟨Channel.position, readV s initialPosition⟩])
  else
    if isHovering then
      if isMeshWithGeometry then
        match bbCenter with
        | some center =>
          let lc := allocV s center
          let ofi := cloneV lc.1 lc.2
          let s3 := vsubIntoRef ofi.1 ofi.2 initialPosition
          let oa := cloneV s3 ofi.2
          let s5 := vmulInto oa.1 oa.2 (HOVER_SCALE - 1)
          let np := cloneV s5 initialPosition
          let s7 := vsubIntoRef np.1 np.2 oa.2
          let ooa := cloneV s7 ofi.2
          let s9 := vmulInto ooa.1 ooa.2 (HOVER_OVEREXTEND_SCALE - 1)
          let op := cloneV s9 initialPosition
          let s11 := vsubIntoRef op.1 op.2 ooa.2
          let iv := readV s11 initialScale
          (s11,
            [⟨Channel.scale, V3.smul HOVER_OVEREXTEND_SCALE iv⟩,
             ⟨Channel.position, readV s11 op.2⟩,
             ⟨Channel.scale, V3.smul HOVER_SCALE iv⟩,
             ⟨Channel.position, readV s11 np.2⟩])
        | Option.none =>
          let iv := readV s initialScale
          (s, [⟨Channel.scale, V3.smul HOVER_OVEREXTEND_SCALE iv⟩,
               ⟨Channel.scale, V3.smul HOVER_SCALE iv⟩])
      else
        let iv := readV s initialScale
        (s, [⟨Channel.scale, V3.smul HOVER_OVEREXTEND_SCALE iv⟩,
             ⟨Channel.scale, V3.smul HOVER_SCALE iv⟩])
    else
      (s, [⟨Channel.scale, readV s initialScale⟩,
           ⟨Channel.position, readV s initialPosition⟩])

/-- Transform channels of the animated original object in the vector store. -/
structure ObjChannels where
  posRef : Nat
  scaleRef : Nat
deriving DecidableEq, Repr

/-- Final value a tween leaves in its channel once it completes (tweens are
superseded per channel, so the last tween of a channel wins). -/
def applyTween (o : ObjChannels) (s : VStore) (t : Tween) : VStore :=
  match t.channel with
  | Channel.position => writeV s o.posRef t.target
  | Channel.scale => writeV s o.scaleRef t.target

/-- One completed hover transition: `playHoverAnimation` followed by letting
every emitted tween run to completion. -/
def applyTransition (objName : String) (o : ObjChannels)
    (initialScale initialPosition : Nat) (isMeshWithGeometry : Bool)
    (bbCenter : Option V3) (s : VStore) (entering : Bool) : VStore × List Tween :=
  let r := playHoverAnimation s objName initialScale initialPosition entering
    isMeshWithGeometry bbCenter
  (r.2.foldl (applyTween o) r.1, r.2)

/-- Run of a sequence of enter/exit transitions, collecting each transition's
emitted tween list. -/
def runTransitions (objName : String) (o : ObjChannels)
    (initialScale initialPosition : Nat) (isMeshWithGeometry : Bool)
    (bbCenter : Option V3) : VStore → List Bool → VStore × List (List Tween)
  | s, [] => (s, [])
  | s, b :: bs =>
    let r := applyTransition objName o initialScale initialPosition
      isMeshWithGeometry bbCenter s b
    let rest := runTransitions objName o initialScale initialPosition
      isMeshWithGeometry bbCenter r.1 bs
    (rest.1, r.2 :: rest.2)

/-- Embedding of the metadata capture of `createHitbox`: `initialScale` and
`initialPosition` are clones of the object's transform vectors, taken at
classification time. -/
def captureMetadata (s : VStore) (o : ObjChannels) : VStore × Nat × Nat :=
  let cs := cloneV s o.scaleRef
  let cp := cloneV cs.1 o.posRef
  (cp.1, cs.2, cp.2)

/-! ## Raycaster hook (`useSceneRaycaster`) -/

/-- Static configuration of the raycaster hook: the registry, the viewport
size, and the geometric intersection function (an abstract stand-in for
`raycaster.intersectObjects` with the current camera, returning the nearest-
first hit list for a normalized pointer position). -/
structure RayConfig where
  interactiveMeshes : List HMesh
  width : ℚ
  height : ℚ
  raycast : ℚ × ℚ → List HMesh → List HMesh

/-- Mutable state of the raycaster hook. -/
structure RayState where
  enabled : Bool
  lastEnabledState : Bool
  requiresMouseMove : Bool
  pointer : ℚ × ℚ

/-- Events consumed by the raycaster hook: the `enabled` prop changing (its
effect runs), a pointer/touch move (listeners are attached only while
enabled), and a render tick (the `useFrame` callback). -/
inductive RayEvent where
  | setEnabled (b : Bool)
  | pointerMove (clientX clientY : ℚ)
  | frameTick

/-- One step of the raycaster hook.  A frame tick yields `some` intersection
list (the value passed to `setIntersects`); other events yield no output. -/
def rayStep (cfg : RayConfig) (s : RayState) : RayEvent → RayState × Option (List HMesh)
  | RayEvent.setEnabled b =>
    ({ s with
        requiresMouseMove := if ¬s.lastEnabledState ∧ b then true else s.requiresMouseMove,
        lastEnabledState := b,
        enabled := b }, Option.none)
  | RayEvent.pointerMove clientX clientY =>
    if s.enabled then
      ({ s with
          pointer := (clientX / cfg.width * 2 - 1, -(clientY / cfg.height) * 2 + 1),
          requiresMouseMove := false }, Option.none)
    else (s, Option.none)
  | RayEvent.frameTick =>
    if ¬s.enabled ∨ cfg.interactiveMeshes = [] ∨ s.requiresMouseMove then
      (s, some [])
    else
      (s, some (cfg.raycast s.pointer cfg.interactiveMeshes))

/-- Run of the raycaster hook over an event list, collecting every frame
tick's intersection output in order. -/
def rayRun (cfg : RayConfig) (s : RayState) : List RayEvent → RayState × List (List HMesh)
  | [] => (s, [])
  | e :: es =>
    let r := rayStep cfg s e
    let rest := rayRun cfg r.1 es
    (rest.1, (match r.2 with | some out => [out] | Option.none => []) ++ rest.2)

/-- Predicate: the event is a pointer move. -/
def RayEvent.isPointerMove : RayEvent → Bool
  | RayEvent.pointerMove _ _ => true
  | _ => false

/-! ## Grass field setup effect (`GrassField.tsx`) -/

/-- Scale parameters cached by `lastScaleParamsRef`. -/
structure ScaleParams where
  terrainScale : ℚ
  terrainHeightScale : ℚ
  grassScale : ℚ
  grassHeightScale : ℚ
deriving DecidableEq, Repr

/-- Dependency array of the grass setup effect: identities of the loaded
scenes and material, the instance count, and the four scale parameters. -/
structure GrassDeps where
  islandSceneId : Nat
  grassLODsSceneId : Nat
  grassMaterialId : Nat
  grassCount : Nat
  scaleParams : ScaleParams
deriving DecidableEq, Repr

/-- State held across runs of the grass setup effect.  Allocated objects
(cloned geometries, instanced meshes) carry fresh ids from `nextId`, modelling
JavaScript object identity. -/
structure GrassState where
  lastScaleParams : Option ScaleParams
  terrainGeometry : Option Nat
  grassGeometry : Option Nat
  instancedMesh : Option Nat
  lastDeps : Option GrassDeps
  nextId : Nat
deriving DecidableEq, Repr

/-- Embedding of one execution of the grass setup effect, assuming the loaded
scenes contain the terrain mesh and the LOD00 grass mesh (the early-return
warning branches are not taken; no claim concerns them).  Terrain and grass
geometries are re-cloned and re-scaled only when `scaleParamsChanged` (or when
no cached geometry exists); the `MeshSurfaceSampler`, the `InstancedMesh` and
its per-instance matrix buffer are created afresh on every execution. -/
def runGrassEffect (d : GrassDeps) (st : GrassState) : GrassState :=
  let scaleParamsChanged := st.lastScaleParams ≠ some d.scaleParams
  let terrainStep :
      Option Nat × Nat :=
    if scaleParamsChanged ∨ st.terrainGeometry = Option.none then
      (some st.nextId, st.nextId + 1)
    else (st.terrainGeometry, st.nextId)
  let grassStep : Option Nat × Nat :=
    if scaleParamsChanged ∨ st.grassGeometry = Option.none then
      (some terrainStep.2, terrainStep.2 + 1)
    else (st.grassGeometry, terrainStep.2)
  let instancedMeshId := grassStep.2
  { lastScaleParams := some d.scaleParams,
    terrainGeometry := terrainStep.1,
    grassGeometry := grassStep.1,
    instancedMesh := some instancedMeshId,
    lastDeps := st.lastDeps,
    nextId := instancedMeshId + 1 }

/-- One render of `GrassField` with dependency values `d`: React re-runs the
setup effect exactly when some entry of the dependency array changed. -/
def renderGrass (d : GrassDeps) (st : GrassState) : GrassState :=
  if st.lastDeps = some d then st
  else { runGrassEffect d st with lastDeps := some d }

/-! ## Derived profiles and concrete scenario fixtures -/

/-- Closed form of the tween targets emitted by `playHoverAnimation`, written
as a function of the captured rest pose (and the static bounding-box center)
alone.  Agreement of `playHoverAnimation` with this profile on every call shows
that animation targets are offsets from the rest pose and never accumulate. -/
def expectedTweens (objName : String) (isMeshWithGeometry : Bool)
    (bbCenter : Option V3) (restScale restPos : V3) (entering : Bool) : List Tween :=
  if strIncludes objName patCabinetDrawer then
    if entering then
      [⟨Channel.position, V3.add restPos ⟨0, 0, DRAWER_SLIDE_DISTANCE⟩⟩]
    else [⟨Channel.position, restPos⟩]
  else if strIncludes objName patPCube then
    if entering then
      [⟨Channel.position, V3.add restPos ⟨0, -33 / 10, 0⟩⟩]
    else [⟨Channel.position, restPos⟩]
  else
    if entering then
      if isMeshWithGeometry then
        match bbCenter with
        | some center =>
          [⟨Channel.scale, V3.smul HOVER_OVEREXTEND_SCALE restScale⟩,
           ⟨Channel.position,
             V3.sub restPos (V3.smul (HOVER_OVEREXTEND_SCALE - 1) (V3.sub center restPos))⟩,
           ⟨Channel.scale, V3.smul HOVER_SCALE restScale⟩,
           ⟨Channel.position,
             V3.sub restPos (V3.smul (HOVER_SCALE - 1) (V3.sub center restPos))⟩]
        | Option.none =>
          [⟨Channel.scale, V3.smul HOVER_OVEREXTEND_SCALE restScale⟩,
           ⟨Channel.scale, V3.smul HOVER_SCALE restScale⟩]
      else
        [⟨Channel.scale, V3.smul HOVER_OVEREXTEND_SCALE restScale⟩,
         ⟨Channel.scale, V3.smul HOVER_SCALE restScale⟩]
    else
      [⟨Channel.scale, restScale⟩, ⟨Channel.position, restPos⟩]

/-- Object ids with attached metadata that occur in a registry. -/
def registryObjIds (reg : List HMesh) : List Nat :=
  reg.filterMap (fun mesh => mesh.metadata.map HoverMetadata.objId)

/-- Fixture: a hoverable-only disk prop (matches the `disk` hoverable pattern
and no clickable pattern, and is in no composite group). -/
def toolsMeta : HoverMetadata :=
  ⟨10, "disk_tools", 0, 1, InteractionType.hoverable⟩

def toolsHitbox : HMesh := ⟨1, "hitbox_disk_tools", some toolsMeta⟩

def regC1 : List HMesh := [toolsHitbox]

/-- Timed raycast trace for the hysteresis scenario: hover acquired at 0 ms,
hit lost at 16 ms, hit regained on the same hitbox at 32 ms (within the 100 ms
exit delay), frames continue past the 116 ms unhover deadline. -/
def traceC1 : List (Nat × List HMesh) :=
  [(0, [toolsHitbox]), (16, []), (32, [toolsHitbox]), (132, [toolsHitbox])]

/-- Fixture: the two phone parts with their hitboxes. -/
def phoneBaseMeta : HoverMetadata :=
  ⟨20, "phone_base", 2, 3, InteractionType.clickable⟩

def phoneDeviceMeta : HoverMetadata :=
  ⟨21, "phone_device", 4, 5, InteractionType.clickable⟩

def phoneBaseHitbox : HMesh := ⟨2, "hitbox_phone_base", some phoneBaseMeta⟩

def phoneDeviceHitbox : HMesh := ⟨3, "hitbox_phone_device", some phoneDeviceMeta⟩

def phoneReg : List HMesh := [phoneBaseHitbox, phoneDeviceHitbox]

/-- Fixture: a computer prop with two parts, and a cabinet drawer. -/
def computerScreenMeta : HoverMetadata :=
  ⟨30, "computer_screen", 6, 7, InteractionType.clickable⟩

def computerTowerMeta : HoverMetadata :=
  ⟨31, "computer_tower", 8, 9, InteractionType.clickable⟩

def drawerAboutMeta : HoverMetadata :=
  ⟨32, "cabinet_drawer_about", 10, 11, InteractionType.clickable⟩

def computerScreenHitbox : HMesh := ⟨4, "hitbox_computer_screen", some computerScreenMeta⟩

def computerTowerHitbox : HMesh := ⟨5, "hitbox_computer_tower", some computerTowerMeta⟩

def drawerAboutHitbox : HMesh := ⟨6, "hitbox_cabinet_drawer_about", some drawerAboutMeta⟩

def sceneReg : List HMesh := [computerScreenHitbox, computerTowerHitbox, drawerAboutHitbox]

/-- Fixture: grass effect dependencies; `grassDepsB` changes only the grass
material identity, leaving the (surface, count, scale-parameters) tuple of
`grassDepsA` untouched. -/
def grassParamsA : ScaleParams := ⟨2, 1, 1, 3⟩

def grassDepsA : GrassDeps := ⟨1, 2, 3, 3000, grassParamsA⟩

def grassDepsB : GrassDeps := ⟨1, 2, 4, 3000, grassParamsA⟩

def grassInit : GrassState :=
  ⟨Option.none, Option.none, Option.none, Option.none, Option.none, 100⟩

def grassAfterA : GrassState := renderGrass grassDepsA grassInit

def grassAfterB : GrassState := renderGrass grassDepsB grassAfterA

/-! ## Store access lemmas -/

theorem readV_append_right (s t : VStore) (i : Nat) :
    readV (s ++ t) (s.length + i) = readV t i := by
  simp [readV, List.getD, List.getElem?_append_right]

theorem readV_append_len (s t : VStore) :
    readV (s ++ t) s.length = readV t 0 := by
  simpa using readV_append_right s t 0

theorem readV_append_left (s t : VStore) (r : Nat) (h : r < s.length) :
    readV (s ++ t) r = readV s r := by
  simp [readV, List.getD, List.getElem?_append_left h]

theorem writeV_concat (s : VStore) (v w : V3) :
    writeV (s ++ [v]) s.length w = s ++ [w] := by
  induction s with
  | nil => rfl
  | cons x xs ih => simp [writeV, List.set]

theorem readV_write_ne (s : VStore) (i j : Nat) (v : V3) (h : i ≠ j) :
    readV (writeV s i v) j = readV s j := by
  simp [readV, writeV, List.getD, List.getElem?_set_ne h]

theorem length_writeV (s : VStore) (i : Nat) (v : V3) :
    (writeV s i v).length = s.length := by
  simp [writeV]

/-! ## Claim C2 -/

/-- Claim C2: `classifyObject` is a pure total Lean function (hence
deterministic); whenever some clickable pattern occurs in the name as a
case-sensitive substring, the classification is `clickable`, regardless of any
hoverable-pattern matches; a name matching no pattern of either table
classifies as `none`. -/
theorem classify_clickable_priority (n : String) :
    ((∃ p ∈ CLICKABLE_PATTERNS, strIncludes n p = true) →
      classifyObject n = InteractionType.clickable)
    ∧ ((∀ p ∈ CLICKABLE_PATTERNS, strIncludes n p = false) →
       (∀ p ∈ HOVERABLE_PATTERNS, strIncludes n p = false) →
      classifyObject n = InteractionType.none) := by
  constructor
  · intro h
    rcases h with ⟨p, hp, hs⟩
    have hc : isClickable n = true := List.any_eq_true.mpr ⟨p, hp, hs⟩
    simp [classifyObject, hc]
  · intro h1 h2
    have hc : isClickable n = false := by
      simp only [isClickable, List.any_eq_false]
      intro p hp
      simp [h1 p hp]
    have hh : isHoverable n = false := by
      simp only [isHoverable, List.any_eq_false]
      intro p hp
      simp [h2 p hp]
    simp [classifyObject, hc, hh]

/-- Witness for C2: `phone_device` matches the clickable pattern `phone` (while
also matching hoverable patterns) and classifies as `clickable`; `tree` matches
no pattern and classifies as `none`. -/
theorem classify_clickable_priority_witness :
    classifyObject ("phone_device") = InteractionType.clickable
    ∧ classifyObject ("tree") = InteractionType.none :=
  ⟨(classify_clickable_priority ("phone_device")).1 (by decide),
   (classify_clickable_priority ("tree")).2 (by decide) (by decide)⟩

/-! ## Claim C7 -/

/-- Claim C7: action resolution picks the most specific substring in
declaration order: a node named `computer_screen` classifies as clickable, its
action is `onScreenClick` (not the generic `onComputerClick`), and activating
it via the dispatcher performs exactly one effect, the invocation of the
screen-cycle action. -/
theorem computer_screen_action_resolution :
    classifyObject patComputerScreen = InteractionType.clickable
    ∧ getClickActionName patComputerScreen = some ClickActionKey.onScreenClick
    ∧ getClickActionName patComputerScreen ≠ some ClickActionKey.onComputerClick
    ∧ handleClick [computerScreenHitbox] = [ClickEffect.invoke ClickActionKey.onScreenClick]
    ∧ (handleClick [computerScreenHitbox]).length = 1 := by
  refine ⟨by decide, by decide, by decide, ?_, ?_⟩ <;> decide

/-! ## Claim C6 -/

/-- Claim C6: a discrete activate input (click or touch-end) is dispatched
uniformly; the dispatcher consumes the current hit-test result over the
registry, takes the nearest hit, and acts only when that hit's
`interactionType` is clickable; names containing `disk_linkedin` or
`disk_github` open an external URL and bypass the action table; a miss or a
non-clickable nearest hit performs no effect at all. -/
theorem click_dispatch_contract (i : ActivateInput) (xs : List HMesh)
    (m : HMesh) (md : HoverMetadata) :
    (dispatchActivate i xs = handleClick xs)
    ∧ (handleClick [] = [])
    ∧ (xs.head? = some m → m.metadata = Option.none → handleClick xs = [])
    ∧ (xs.head? = some m → m.metadata = some md →
        md.interactionType ≠ InteractionType.clickable → handleClick xs = [])
    ∧ (xs.head? = some m → m.metadata = some md →
        md.interactionType = InteractionType.clickable →
        strIncludes m.name patDiskLinkedin = true →
        handleClick xs = [ClickEffect.openURL linkedinURL])
    ∧ (xs.head? = some m → m.metadata = some md →
        md.interactionType = InteractionType.clickable →
        strIncludes m.name patDiskLinkedin = false →
        strIncludes m.name patDiskGithub = true →
        handleClick xs = [ClickEffect.openURL githubURL])
    ∧ (xs.head? = some m → m.metadata = some md →
        md.interactionType = InteractionType.clickable →
        strIncludes m.name patDiskLinkedin = false →
        strIncludes m.name patDiskGithub = false →
        handleClick xs =
          (match getClickActionName m.name with
           | some actionName => [ClickEffect.invoke actionName]
           | Option.none => []))
    ∧ (∀ k, ClickEffect.invoke k ∈ handleClick xs →
        ∃ m2 md2, xs.head? = some m2 ∧ m2.metadata = some md2 ∧
          md2.interactionType = InteractionType.clickable ∧
          getClickActionName m2.name = some k) := by
  obtain _ | ⟨m0, rest⟩ := xs
  · refine ⟨by cases i <;> rfl, rfl, by simp, by simp, by simp, by simp, by simp, ?_⟩
    intro k hk
    simp [handleClick] at hk
  · have hm0 : (m0 :: rest).head? = some m0 := rfl
    refine ⟨by cases i <;> rfl, rfl, ?_, ?_, ?_, ?_, ?_, ?_⟩
    · intro hm hmd
      rw [hm0] at hm
      cases hm
      simp [handleClick, hmd]
    · intro hm hmd hne
      rw [hm0] at hm
      cases hm
      simp [handleClick, hmd, hne]
    · intro hm hmd hcl hlk
      rw [hm0] at hm
      cases hm
      simp [handleClick, hmd, hcl, hlk]
    · intro hm hmd hcl hlk hgh
      rw [hm0] at hm
      cases hm
      simp [handleClick, hmd, hcl, hlk, hgh]
    · intro hm hmd hcl hlk hgh
      rw [hm0] at hm
      cases hm
      simp [handleClick, hmd, hcl, hlk, hgh]
    · intro k hk
      refine ⟨m0, ?_⟩
      simp only [handleClick] at hk
      cases hmd : m0.metadata with
      | none => rw [hmd] at hk; simp at hk
      | some md2 =>
        rw [hmd] at hk
        refine ⟨md2, rfl, rfl, ?_, ?_⟩
        · by_cases hcl : md2.interactionType = InteractionType.clickable
          · exact hcl
          · simp [hcl] at hk
        · by_cases hcl : md2.interactionType = InteractionType.clickable
          · simp only [hcl, ne_eq, not_true_eq_false, if_false] at hk
            by_cases hlk : strIncludes m0.name patDiskLinkedin = true
            · simp [hlk] at hk
            · simp only [Bool.not_eq_true] at hlk
              by_cases hgh : strIncludes m0.name patDiskGithub = true
              · simp [hlk, hgh] at hk
              · simp only [Bool.not_eq_true] at hgh
                simp only [hlk, hgh, Bool.false_eq_true, if_false] at hk
                cases hga : getClickActionName m0.name with
                | none => rw [hga] at hk; simp at hk
                | some a =>
                  rw [hga] at hk
                  simp at hk
                  rw [hk]
          · simp [hcl] at hk

/-- Witness for C6: a clickable `disk_linkedin` hit opens the external URL,
and a hoverable-only nearest hit is a silent no-op. -/
theorem click_dispatch_contract_witness :
    handleClick [⟨7, "hitbox_disk_linkedin",
        some ⟨40, "disk_linkedin", 12, 13, InteractionType.clickable⟩⟩]
      = [ClickEffect.openURL linkedinURL]
    ∧ handleClick [toolsHitbox] = [] :=
  ⟨(click_dispatch_contract ActivateInput.pointerClick
      [⟨7, "hitbox_disk_linkedin", some ⟨40, "disk_linkedin", 12, 13, InteractionType.clickable⟩⟩]
      ⟨7, "hitbox_disk_linkedin", some ⟨40, "disk_linkedin", 12, 13, InteractionType.clickable⟩⟩
      ⟨40, "disk_linkedin", 12, 13, InteractionType.clickable⟩).2.2.2.2.1
        (by decide) (by decide) (by decide) (by decide),
   (click_dispatch_contract ActivateInput.pointerClick [toolsHitbox] toolsHitbox
      toolsMeta).2.2.2.1 (by decide) (by decide) (by decide)⟩

/-! ## Claim C10 -/

/-- Claim C10: phone grouping is one-way: a hovered metadata whose object name
contains `phone_base` (and not `computer_`) expands to all registry meshes
whose names contain `phone_`, while a hovered name containing neither
`computer_` nor `phone_base` (such as `phone_device`) resolves to the singleton
group of that metadata alone; in particular, with both phone parts registered,
hovering `phone_device` animates only `phone_device`, not the pair. -/
theorem phone_grouping_one_way (reg : List HMesh) (ma md : HoverMetadata)
    (hbase : strIncludes ma.objName patPhoneBase = true)
    (hanc : strIncludes ma.objName patComputerGroup = false)
    (hdnc : strIncludes md.objName patComputerGroup = false)
    (hdnb : strIncludes md.objName patPhoneBase = false) :
    getGroupMetas reg (some ma) = findGroup reg patPhoneGroup
    ∧ getGroupMetas reg (some md) = [md]
    ∧ getGroupMetas phoneReg (some phoneBaseMeta) = [phoneBaseMeta, phoneDeviceMeta]
    ∧ getGroupMetas phoneReg (some phoneDeviceMeta) = [phoneDeviceMeta] := by
  refine ⟨?_, ?_, by decide, by decide⟩
  · simp [getGroupMetas, hbase, hanc]
  · simp [getGroupMetas, hdnc, hdnb]

/-- Witness for C10: instantiation at the two phone parts of the fixture
registry. -/
theorem phone_grouping_one_way_witness :
    getGroupMetas phoneReg (some phoneBaseMeta) = findGroup phoneReg patPhoneGroup
    ∧ getGroupMetas phoneReg (some phoneDeviceMeta) = [phoneDeviceMeta] :=
  ⟨(phone_grouping_one_way phoneReg phoneBaseMeta phoneDeviceMeta
      (by decide) (by decide) (by decide) (by decide)).1,
   (phone_grouping_one_way phoneReg phoneBaseMeta phoneDeviceMeta
      (by decide) (by decide) (by decide) (by decide)).2.1⟩

/-! ## Claim C1 -/

/-- Claim C1 (code bug): in the loss-then-regain-within-delay scenario the
frame loop's same-mesh early return never cancels the pending unhover timeout,
and the timeout's stale-hover guard (`stillPrevMesh === prevMesh`) also passes
because the regained mesh is the captured one; so at the 116 ms deadline the
exit animation fires for the still-hovered group and the enter animation
replays on the next frame — the claim states that no exit is ever played and
that there is no enter replay.  The run of the embedded frame loop over the
scenario trace exhibits the exit start and the replayed enter start. -/
theorem hover_regain_exit_still_fires :
    (hoverRun regC1 ⟨Option.none, Option.none⟩ traceC1).2 =
      [AnimEvent.enterStart 10, AnimEvent.exitStart 10, AnimEvent.enterStart 10]
    ∧ AnimEvent.exitStart 10 ∈ (hoverRun regC1 ⟨Option.none, Option.none⟩ traceC1).2 := by
  decide

/-! ## Claim C4 -/

theorem findGroup_objIds_sublist (reg : List HMesh) (pattern : String) :
    ((findGroup reg pattern).map HoverMetadata.objId).Sublist (registryObjIds reg) := by
  induction reg with
  | nil => simp [findGroup, registryObjIds]
  | cons mesh rest ih =>
    simp only [findGroup, registryObjIds, List.filterMap_cons] at ih ⊢
    cases hmd : mesh.metadata with
    | none => exact ih
    | some m =>
      by_cases hp : strIncludes mesh.name pattern = true
      · simp only [hp, if_true, Option.map_some, List.map_cons]
        exact (ih.cons₂ m.objId)
      · simp only [Bool.not_eq_true] at hp
        simp only [hp, Bool.false_eq_true, if_false, Option.map_some]
        exact ih.cons m.objId

theorem getGroupMetas_objIds_nodup (reg : List HMesh) (meta : HoverMetadata)
    (hnd : (registryObjIds reg).Nodup) :
    ((getGroupMetas reg (some meta)).map HoverMetadata.objId).Nodup := by
  simp only [getGroupMetas]
  by_cases h1 : strIncludes meta.objName patComputerGroup = true
  · simp only [h1, if_true]
    exact hnd.sublist (findGroup_objIds_sublist reg patComputerGroup)
  · simp only [Bool.not_eq_true] at h1
    simp only [h1, Bool.false_eq_true, if_false]
    by_cases h2 : strIncludes meta.objName patPhoneBase = true
    · simp only [h2, if_true]
      exact hnd.sublist (findGroup_objIds_sublist reg patPhoneGroup)
    · simp only [Bool.not_eq_true] at h2
      simp [h2]

theorem count_exitStart_exitEvents (metas : List HoverMetadata) (i : Nat) :
    (exitEventsFor metas).count (AnimEvent.exitStart i) =
      (metas.map HoverMetadata.objId).count i := by
  have hinj : Function.Injective AnimEvent.exitStart := by
    intro x y h
    cases h
    rfl
  have : exitEventsFor metas = (metas.map HoverMetadata.objId).map AnimEvent.exitStart := by
    simp [exitEventsFor, List.map_map, Function.comp]
  rw [this]
  exact List.count_map_of_injective _ _ hinj _

theorem count_enterStart_enterEvents (metas : List HoverMetadata) (i : Nat) :
    (enterEventsFor metas).count (AnimEvent.enterStart i) =
      (metas.map HoverMetadata.objId).count i := by
  have hinj : Function.Injective AnimEvent.enterStart := by
    intro x y h
    cases h
    rfl
  have : enterEventsFor metas = (metas.map HoverMetadata.objId).map AnimEvent.enterStart := by
    simp [enterEventsFor, List.map_map, Function.comp]
  rw [this]
  exact List.count_map_of_injective _ _ hinj _

theorem count_exitStart_enterEvents (metas : List HoverMetadata) (i : Nat) :
    (enterEventsFor metas).count (AnimEvent.exitStart i) = 0 := by
  simp only [List.count_eq_zero, enterEventsFor, List.mem_map]
  rintro ⟨m, -, h⟩
  cases h

theorem count_enterStart_exitEvents (metas : List HoverMetadata) (i : Nat) :
    (exitEventsFor metas).count (AnimEvent.enterStart i) = 0 := by
  simp only [List.count_eq_zero, exitEventsFor, List.mem_map]
  rintro ⟨m, -, h⟩
  cases h

/-- Claim C4: when the hovered target switches from mesh `a` to a different
mesh `b` in the `Hovering` state (no pending exit), the single frame tick
emits the exit starts of `a`'s whole group followed by the enter starts of
`b`'s whole group — both in the same tick's event list — with exactly one exit
start per node of `a`'s group and exactly one enter start per node of `b`'s
group (distinct original objects in the registry), and the state moves
directly to hovering `b`, never through an idle state. -/
theorem hover_group_switch (reg : List HMesh) (s : HoverFrameState)
    (a b : HMesh) (ma mb : HoverMetadata) (now : Nat) (rest : List HMesh)
    (hsa : s.hoveredMesh = some a) (hsp : s.pendingUnhover = Option.none)
    (hma : a.metadata = some ma) (hmb : b.metadata = some mb) (hab : b ≠ a)
    (hnd : (registryObjIds reg).Nodup) :
    (hoverTick reg s now (b :: rest)).1 = ⟨some b, Option.none⟩
    ∧ (hoverTick reg s now (b :: rest)).2 =
        exitEventsFor (getGroupMetas reg (some ma))
          ++ enterEventsFor (getGroupMetas reg (some mb))
    ∧ (∀ m ∈ getGroupMetas reg (some ma),
        ((hoverTick reg s now (b :: rest)).2).count (AnimEvent.exitStart m.objId) = 1)
    ∧ (∀ m ∈ getGroupMetas reg (some mb),
        ((hoverTick reg s now (b :: rest)).2).count (AnimEvent.enterStart m.objId) = 1) := by
  obtain ⟨sh, sp⟩ := s
  simp only at hsa hsp
  subst hsa hsp
  have hne : (some b = some a) = False := by
    simp [hab]
  have heq : hoverTick reg ⟨some a, Option.none⟩ now (b :: rest) =
      (⟨some b, Option.none⟩,
        exitEventsFor (getGroupMetas reg (some ma))
          ++ enterEventsFor (getGroupMetas reg (some mb))) := by
    simp [hoverTick, hoverFrame, hne, hmb, hma, Option.bind]
  refine ⟨by rw [heq], by rw [heq], ?_, ?_⟩
  · intro m hm
    rw [heq]
    have hmem : m.objId ∈ (getGroupMetas reg (some ma)).map HoverMetadata.objId :=
      List.mem_map_of_mem _ hm
    have h1 : ((getGroupMetas reg (some ma)).map HoverMetadata.objId).count m.objId = 1 :=
      List.count_eq_one_of_mem (getGroupMetas_objIds_nodup reg ma hnd) hmem
    simp [List.count_append, count_exitStart_exitEvents, count_exitStart_enterEvents, h1]
  · intro m hm
    rw [heq]
    have hmem : m.objId ∈ (getGroupMetas reg (some mb)).map HoverMetadata.objId :=
      List.mem_map_of_mem _ hm
    have h1 : ((getGroupMetas reg (some mb)).map HoverMetadata.objId).count m.objId = 1 :=
      List.count_eq_one_of_mem (getGroupMetas_objIds_nodup reg mb hnd) hmem
    simp [List.count_append, count_enterStart_enterEvents, count_enterStart_exitEvents, h1]

/-- Witness for C4: switching from the hovered computer screen to the cabinet
drawer exits the whole computer group and enters the drawer singleton in one
tick. -/
theorem hover_group_switch_witness :
    (hoverTick sceneReg ⟨some computerScreenHitbox, Option.none⟩ 500 [drawerAboutHitbox]).1 =
      ⟨some drawerAboutHitbox, Option.none⟩
    ∧ (hoverTick sceneReg ⟨some computerScreenHitbox, Option.none⟩ 500 [drawerAboutHitbox]).2 =
        exitEventsFor (getGroupMetas sceneReg (some computerScreenMeta))
          ++ enterEventsFor (getGroupMetas sceneReg (some drawerAboutMeta)) :=
  ⟨(hover_group_switch sceneReg ⟨some computerScreenHitbox, Option.none⟩
      computerScreenHitbox drawerAboutHitbox computerScreenMeta drawerAboutMeta 500 []
      rfl rfl (by decide) (by decide) (by decide) (by decide)).1,
   (hover_group_switch sceneReg ⟨some computerScreenHitbox, Option.none⟩
      computerScreenHitbox drawerAboutHitbox computerScreenMeta drawerAboutMeta 500 []
      rfl rfl (by decide) (by decide) (by decide) (by decide)).2.1⟩

/-! ## Claim C5 -/

theorem rayRun_suppressed (cfg : RayConfig) (s : RayState) (es : List RayEvent)
    (hflag : s.requiresMouseMove = true)
    (hes : ∀ e ∈ es, e.isPointerMove = false) :
    ∀ out ∈ (rayRun cfg s es).2, out = [] := by
  induction es generalizing s with
  | nil => simp [rayRun]
  | cons e rest ih =>
    have hrest : ∀ e2 ∈ rest, e2.isPointerMove = false := fun e2 h2 => hes e2 (by simp [h2])
    cases e with
    | setEnabled b =>
      intro out hout
      simp only [rayRun, rayStep] at hout
      refine ih _ ?_ hrest out hout
      simp only [hflag]
      split <;> rfl
    | pointerMove x y =>
      have := hes (RayEvent.pointerMove x y) (by simp)
      simp [RayEvent.isPointerMove] at this
    | frameTick =>
      intro out hout
      simp only [rayRun, rayStep, hflag] at hout
      simp only [ite_true, or_true] at hout
      simp only [List.mem_append, List.mem_singleton] at hout
      rcases hout with h | h
      · exact h
      · exact ih s hflag hrest out h

/-- Claim C5: after hit testing is re-enabled following a disabled period, the
raycaster hook publishes only empty intersection lists until a pointer-move
event is observed — for every geometric intersection function, hence even when
the stale pointer position lies over an interactive mesh — and every frame
tick publishes an empty list whenever the registry is empty or testing is
disabled. -/
theorem raycaster_reenable_suppression (cfg : RayConfig) (s : RayState)
    (es : List RayEvent) (hlast : s.lastEnabledState = false)
    (hes : ∀ e ∈ es, e.isPointerMove = false) :
    (∀ out ∈ (rayRun cfg (rayStep cfg s (RayEvent.setEnabled true)).1 es).2, out = [])
    ∧ (cfg.interactiveMeshes = [] →
        ∀ s2 : RayState, (rayStep cfg s2 RayEvent.frameTick).2 = some [])
    ∧ (∀ s2 : RayState, s2.enabled = false →
        (rayStep cfg s2 RayEvent.frameTick).2 = some []) := by
  refine ⟨?_, ?_, ?_⟩
  · have hflag : (rayStep cfg s (RayEvent.setEnabled true)).1.requiresMouseMove = true := by
      simp [rayStep, hlast]
    exact rayRun_suppressed cfg _ es hflag hes
  · intro hreg s2
    simp [rayStep, hreg]
  · intro s2 h2
    simp [rayStep, h2]

/-- Witness for C5: a raycaster whose geometric test always reports the full
registry (the stale pointer overlaps an interactive mesh) still publishes an
empty list on the first frame after re-enabling. -/
theorem raycaster_reenable_suppression_witness :
    ((rayRun
        ⟨phoneReg, 800, 600, fun _ meshes => meshes⟩
        (rayStep ⟨phoneReg, 800, 600, fun _ meshes => meshes⟩
          ⟨false, false, false, (0, 0)⟩ (RayEvent.setEnabled true)).1
        [RayEvent.frameTick, RayEvent.frameTick]).2).getD 0 [toolsHitbox] = [] :=
  (raycaster_reenable_suppression ⟨phoneReg, 800, 600, fun _ meshes => meshes⟩
    ⟨false, false, false, (0, 0)⟩ [RayEvent.frameTick, RayEvent.frameTick]
    rfl (by intro e he; simp at he; simp [he, RayEvent.isPointerMove])).1
    (((rayRun
        ⟨phoneReg, 800, 600, fun _ meshes => meshes⟩
        (rayStep ⟨phoneReg, 800, 600, fun _ meshes => meshes⟩
          ⟨false, false, false, (0, 0)⟩ (RayEvent.setEnabled true)).1
        [RayEvent.frameTick, RayEvent.frameTick]).2).getD 0 [toolsHitbox])
    (by simp [rayRun, rayStep])

/-! ## Claim C9 -/

/-- Counterexample to C9 as stated: re-running the grass setup effect with the
(surface, count, scale-parameters) tuple unchanged — triggered here by a new
grass material identity, a dependency outside that tuple — reuses the cached
scaled geometries but allocates a fresh `InstancedMesh` (the holder of the
per-instance transform array), so the rebuild does not return the previously
built instance array object. -/
theorem grass_rebuild_reallocates_instances :
    grassDepsB.islandSceneId = grassDepsA.islandSceneId
    ∧ grassDepsB.grassLODsSceneId = grassDepsA.grassLODsSceneId
    ∧ grassDepsB.grassCount = grassDepsA.grassCount
    ∧ grassDepsB.scaleParams = grassDepsA.scaleParams
    ∧ grassAfterB.terrainGeometry = grassAfterA.terrainGeometry
    ∧ grassAfterB.grassGeometry = grassAfterA.grassGeometry
    ∧ grassAfterB.instancedMesh ≠ grassAfterA.instancedMesh
    ∧ grassAfterA.instancedMesh ≠ Option.none
    ∧ grassAfterB.instancedMesh ≠ Option.none := by
  decide

/-- Claim C9 (amended): the cache covers only the cloned, scaled terrain and
grass-blade geometries: an effect execution with unchanged scale parameters
reuses both cached geometry objects, and no rebuild at all occurs when the
whole dependency tuple (scenes, material, count, scale parameters) is
unchanged; but every effect execution — also one triggered by a dependency
outside the (surface, count, scale) tuple, such as a new material — allocates
a fresh instanced mesh holding the per-instance transform array. -/
theorem grass_cache_covers_geometry_only (st : GrassState) (d : GrassDeps)
    (h1 : st.lastScaleParams = some d.scaleParams)
    (h2 : st.terrainGeometry ≠ Option.none) (h3 : st.grassGeometry ≠ Option.none)
    (hwf : ∀ i, st.instancedMesh = some i → i < st.nextId) :
    (st.lastDeps = some d → renderGrass d st = st)
    ∧ (runGrassEffect d st).terrainGeometry = st.terrainGeometry
    ∧ (runGrassEffect d st).grassGeometry = st.grassGeometry
    ∧ (runGrassEffect d st).instancedMesh = some st.nextId
    ∧ (runGrassEffect d st).instancedMesh ≠ st.instancedMesh := by
  have hch : (st.lastScaleParams ≠ some d.scaleParams) = False := by
    simp [h1]
  refine ⟨?_, ?_, ?_, ?_, ?_⟩
  · intro hdeps
    simp [renderGrass, hdeps]
  · simp [runGrassEffect, hch, h2]
  · simp [runGrassEffect, hch, h3]
  · simp [runGrassEffect, hch, h2, h3]
  · simp only [runGrassEffect, hch]
    simp only [h2, h3, false_or, if_false]
    intro hcontra
    have := hwf st.nextId hcontra.symm
    omega

/-- Witness for C9's amended theorem: the second render of the fixture (same
tuple, new material) reuses both geometries and allocates instanced mesh id
`nextId`. -/
theorem grass_cache_covers_geometry_only_witness :
    (runGrassEffect grassDepsB grassAfterA).terrainGeometry = grassAfterA.terrainGeometry
    ∧ (runGrassEffect grassDepsB grassAfterA).grassGeometry = grassAfterA.grassGeometry
    ∧ (runGrassEffect grassDepsB grassAfterA).instancedMesh = some grassAfterA.nextId
    ∧ (runGrassEffect grassDepsB grassAfterA).instancedMesh ≠ grassAfterA.instancedMesh :=
  ⟨(grass_cache_covers_geometry_only grassAfterA grassDepsB (by decide) (by decide)
      (by decide) (by decide)).2.1,
   (grass_cache_covers_geometry_only grassAfterA grassDepsB (by decide) (by decide)
      (by decide) (by decide)).2.2.1,
   (grass_cache_covers_geometry_only grassAfterA grassDepsB (by decide) (by decide)
      (by decide) (by decide)).2.2.2.1,
   (grass_cache_covers_geometry_only grassAfterA grassDepsB (by decide) (by decide)
      (by decide) (by decide)).2.2.2.2⟩

/-! ## Evaluation lemmas for `playHoverAnimation` -/

theorem readV_concat_len (s : VStore) (v : V3) : readV (s ++ [v]) s.length = v := by
  rw [readV_append_len]
  rfl

theorem playHover_drawer_enter (s : VStore) (objName : String) (msc mps : Nat)
    (m : Bool) (bb : Option V3)
    (hD : strIncludes objName patCabinetDrawer = true) :
    playHoverAnimation s objName msc mps true m bb =
      (s ++ [V3.add (readV s mps) ⟨0, 0, DRAWER_SLIDE_DISTANCE⟩],
       [⟨Channel.position, V3.add (readV s mps) ⟨0, 0, DRAWER_SLIDE_DISTANCE⟩⟩]) := by
  have f1 : readV (s ++ [readV s mps]) s.length = readV s mps := readV_concat_len s _
  simp only [playHoverAnimation, hD, if_true, cloneV, allocV, vaddInto]
  rw [f1, writeV_concat, readV_concat_len]

theorem playHover_drawer_exit (s : VStore) (objName : String) (msc mps : Nat)
    (m : Bool) (bb : Option V3)
    (hD : strIncludes objName patCabinetDrawer = true) :
    playHoverAnimation s objName msc mps false m bb =
      (s, [⟨Channel.position, readV s mps⟩]) := by
  simp [playHoverAnimation, hD]

theorem playHover_pcube_enter (s : VStore) (objName : String) (msc mps : Nat)
    (m : Bool) (bb : Option V3)
    (hD : strIncludes objName patCabinetDrawer = false)
    (hP : strIncludes objName patPCube = true) :
    playHoverAnimation s objName msc mps true m bb =
      (s ++ [V3.add (readV s mps) ⟨0, -33 / 10, 0⟩],
       [⟨Channel.position, V3.add (readV s mps) ⟨0, -33 / 10, 0⟩⟩]) := by
  have f1 : readV (s ++ [readV s mps]) s.length = readV s mps := readV_concat_len s _
  simp only [playHoverAnimation, hD, hP, Bool.false_eq_true, if_false, if_true,
    cloneV, allocV, vaddInto]
  rw [f1, writeV_concat, readV_concat_len]

theorem playHover_pcube_exit (s : VStore) (objName : String) (msc mps : Nat)
    (m : Bool) (bb : Option V3)
    (hD : strIncludes objName patCabinetDrawer = false)
    (hP : strIncludes objName patPCube = true) :
    playHoverAnimation s objName msc mps false m bb =
      (s, [⟨Channel.position, readV s mps⟩]) := by
  simp [playHoverAnimation, hD, hP]

theorem playHover_default_exit (s : VStore) (objName : String) (msc mps : Nat)
    (m : Bool) (bb : Option V3)
    (hD : strIncludes objName patCabinetDrawer = false)
    (hP : strIncludes objName patPCube = false) :
    playHoverAnimation s objName msc mps false m bb =
      (s, [⟨Channel.scale, readV s msc⟩, ⟨Channel.position, readV s mps⟩]) := by
  simp [playHoverAnimation, hD, hP]

theorem playHover_default_enter_simple (s : VStore) (objName : String) (msc mps : Nat)
    (m : Bool) (bb : Option V3)
    (hD : strIncludes objName patCabinetDrawer = false)
    (hP : strIncludes objName patPCube = false)
    (hmb : m = false ∨ bb = Option.none) :
    playHoverAnimation s objName msc mps true m bb =
      (s, [⟨Channel.scale, V3.smul HOVER_OVEREXTEND_SCALE (readV s msc)⟩,
           ⟨Channel.scale, V3.smul HOVER_SCALE (readV s msc)⟩]) := by
  rcases hmb with hm | hb
  · simp [playHoverAnimation, hD, hP, hm]
  · cases m <;> simp [playHoverAnimation, hD, hP, hb]


theorem playHover_default_enter_center (s : VStore) (objName : String) (msc mps : Nat)
    (center : V3)
    (hD : strIncludes objName patCabinetDrawer = false)
    (hP : strIncludes objName patPCube = false)
    (hmsc : msc < s.length) (hmp : mps < s.length) :
    playHoverAnimation s objName msc mps true true (some center) =
      (s ++ [center, (V3.sub center (readV s mps)), (V3.smul (HOVER_SCALE - 1) (V3.sub center (readV s mps))), (V3.sub (readV s mps) (V3.smul (HOVER_SCALE - 1) (V3.sub center (readV s mps)))), (V3.smul (HOVER_OVEREXTEND_SCALE - 1) (V3.sub center (readV s mps))), (V3.sub (readV s mps) (V3.smul (HOVER_OVEREXTEND_SCALE - 1) (V3.sub center (readV s mps))))],
       [⟨Channel.scale, V3.smul HOVER_OVEREXTEND_SCALE (readV s msc)⟩,
        ⟨Channel.position, (V3.sub (readV s mps) (V3.smul (HOVER_OVEREXTEND_SCALE - 1) (V3.sub center (readV s mps))))⟩,
        ⟨Channel.scale, V3.smul HOVER_SCALE (readV s msc)⟩,
        ⟨Channel.position, (V3.sub (readV s mps) (V3.smul (HOVER_SCALE - 1) (V3.sub center (readV s mps))))⟩]) := by
  have hmp1 : mps < (s ++ [center]).length := by simp only [List.length_append, List.length_cons, List.length_nil]; omega
  have hmp3 : mps < ((s ++ [center]) ++ [(V3.sub center (readV s mps))]).length := by simp only [List.length_append, List.length_cons, List.length_nil]; omega
  have hmp5 : mps < (((s ++ [center]) ++ [(V3.sub center (readV s mps))]) ++ [(V3.smul (HOVER_SCALE - 1) (V3.sub center (readV s mps)))]).length := by simp only [List.length_append, List.length_cons, List.length_nil]; omega
  have hmp7 : mps < ((((s ++ [center]) ++ [(V3.sub center (readV s mps))]) ++ [(V3.smul (HOVER_SCALE - 1) (V3.sub center (readV s mps)))]) ++ [(V3.sub (readV s mps) (V3.smul (HOVER_SCALE - 1) (V3.sub center (readV s mps))))]).length := by simp only [List.length_append, List.length_cons, List.length_nil]; omega
  have hmp9 : mps < (((((s ++ [center]) ++ [(V3.sub center (readV s mps))]) ++ [(V3.smul (HOVER_SCALE - 1) (V3.sub center (readV s mps)))]) ++ [(V3.sub (readV s mps) (V3.smul (HOVER_SCALE - 1) (V3.sub center (readV s mps))))]) ++ [(V3.smul (HOVER_OVEREXTEND_SCALE - 1) (V3.sub center (readV s mps)))]).length := by simp only [List.length_append, List.length_cons, List.length_nil]; omega
  have hq1 : msc < (s ++ [center]).length := by simp only [List.length_append, List.length_cons, List.length_nil]; omega
  have hq3 : msc < ((s ++ [center]) ++ [(V3.sub center (readV s mps))]).length := by simp only [List.length_append, List.length_cons, List.length_nil]; omega
  have hq5 : msc < (((s ++ [center]) ++ [(V3.sub center (readV s mps))]) ++ [(V3.smul (HOVER_SCALE - 1) (V3.sub center (readV s mps)))]).length := by simp only [List.length_append, List.length_cons, List.length_nil]; omega
  have hq7 : msc < ((((s ++ [center]) ++ [(V3.sub center (readV s mps))]) ++ [(V3.smul (HOVER_SCALE - 1) (V3.sub center (readV s mps)))]) ++ [(V3.sub (readV s mps) (V3.smul (HOVER_SCALE - 1) (V3.sub center (readV s mps))))]).length := by simp only [List.length_append, List.length_cons, List.length_nil]; omega
  have hq9 : msc < (((((s ++ [center]) ++ [(V3.sub center (readV s mps))]) ++ [(V3.smul (HOVER_SCALE - 1) (V3.sub center (readV s mps)))]) ++ [(V3.sub (readV s mps) (V3.smul (HOVER_SCALE - 1) (V3.sub center (readV s mps))))]) ++ [(V3.smul (HOVER_OVEREXTEND_SCALE - 1) (V3.sub center (readV s mps)))]).length := by simp only [List.length_append, List.length_cons, List.length_nil]; omega
  have ht3 : (s ++ [center]).length < ((s ++ [center]) ++ [(V3.sub center (readV s mps))]).length := by simp only [List.length_append, List.length_cons, List.length_nil]; omega
  have ht5 : (s ++ [center]).length < (((s ++ [center]) ++ [(V3.sub center (readV s mps))]) ++ [(V3.smul (HOVER_SCALE - 1) (V3.sub center (readV s mps)))]).length := by simp only [List.length_append, List.length_cons, List.length_nil]; omega
  have hb35 : ((s ++ [center]) ++ [(V3.sub center (readV s mps))]).length < (((s ++ [center]) ++ [(V3.sub center (readV s mps))]) ++ [(V3.smul (HOVER_SCALE - 1) (V3.sub center (readV s mps)))]).length := by simp only [List.length_append, List.length_cons, List.length_nil]; omega
  have hb57 : (((s ++ [center]) ++ [(V3.sub center (readV s mps))]) ++ [(V3.smul (HOVER_SCALE - 1) (V3.sub center (readV s mps)))]).length < ((((s ++ [center]) ++ [(V3.sub center (readV s mps))]) ++ [(V3.smul (HOVER_SCALE - 1) (V3.sub center (readV s mps)))]) ++ [(V3.sub (readV s mps) (V3.smul (HOVER_SCALE - 1) (V3.sub center (readV s mps))))]).length := by simp only [List.length_append, List.length_cons, List.length_nil]; omega
  have hb59 : (((s ++ [center]) ++ [(V3.sub center (readV s mps))]) ++ [(V3.smul (HOVER_SCALE - 1) (V3.sub center (readV s mps)))]).length < (((((s ++ [center]) ++ [(V3.sub center (readV s mps))]) ++ [(V3.smul (HOVER_SCALE - 1) (V3.sub center (readV s mps)))]) ++ [(V3.sub (readV s mps) (V3.smul (HOVER_SCALE - 1) (V3.sub center (readV s mps))))]) ++ [(V3.smul (HOVER_OVEREXTEND_SCALE - 1) (V3.sub center (readV s mps)))]).length := by simp only [List.length_append, List.length_cons, List.length_nil]; omega
  have hb79 : ((((s ++ [center]) ++ [(V3.sub center (readV s mps))]) ++ [(V3.smul (HOVER_SCALE - 1) (V3.sub center (readV s mps)))]) ++ [(V3.sub (readV s mps) (V3.smul (HOVER_SCALE - 1) (V3.sub center (readV s mps))))]).length < (((((s ++ [center]) ++ [(V3.sub center (readV s mps))]) ++ [(V3.smul (HOVER_SCALE - 1) (V3.sub center (readV s mps)))]) ++ [(V3.sub (readV s mps) (V3.smul (HOVER_SCALE - 1) (V3.sub center (readV s mps))))]) ++ [(V3.smul (HOVER_OVEREXTEND_SCALE - 1) (V3.sub center (readV s mps)))]).length := by simp only [List.length_append, List.length_cons, List.length_nil]; omega
  have g1 : readV (s ++ [center]) s.length = center := readV_concat_len s center
  have g2 : readV ((s ++ [center]) ++ [center]) (s ++ [center]).length = center := readV_concat_len (s ++ [center]) center
  have g3 : readV ((s ++ [center]) ++ [center]) mps = readV s mps := by
    rw [readV_append_left _ _ _ hmp1, readV_append_left _ _ _ hmp]
  have g8 : readV (((s ++ [center]) ++ [(V3.sub center (readV s mps))]) ++ [(V3.smul (HOVER_SCALE - 1) (V3.sub center (readV s mps)))]) mps = readV s mps := by
    rw [readV_append_left _ _ _ hmp3, readV_append_left _ _ _ hmp1,
      readV_append_left _ _ _ hmp]
  have g10 : readV ((((s ++ [center]) ++ [(V3.sub center (readV s mps))]) ++ [(V3.smul (HOVER_SCALE - 1) (V3.sub center (readV s mps)))]) ++ [(readV s mps)]) ((s ++ [center]) ++ [(V3.sub center (readV s mps))]).length = (V3.smul (HOVER_SCALE - 1) (V3.sub center (readV s mps))) := by
    rw [readV_append_left _ _ _ hb35]
    exact readV_concat_len ((s ++ [center]) ++ [(V3.sub center (readV s mps))]) (V3.smul (HOVER_SCALE - 1) (V3.sub center (readV s mps)))
  have g12 : readV ((((s ++ [center]) ++ [(V3.sub center (readV s mps))]) ++ [(V3.smul (HOVER_SCALE - 1) (V3.sub center (readV s mps)))]) ++ [(V3.sub (readV s mps) (V3.smul (HOVER_SCALE - 1) (V3.sub center (readV s mps))))]) (s ++ [center]).length = (V3.sub center (readV s mps)) := by
    rw [readV_append_left _ _ _ ht5, readV_append_left _ _ _ ht3]
    exact readV_concat_len (s ++ [center]) (V3.sub center (readV s mps))
  have g15 : readV (((((s ++ [center]) ++ [(V3.sub center (readV s mps))]) ++ [(V3.smul (HOVER_SCALE - 1) (V3.sub center (readV s mps)))]) ++ [(V3.sub (readV s mps) (V3.smul (HOVER_SCALE - 1) (V3.sub center (readV s mps))))]) ++ [(V3.smul (HOVER_OVEREXTEND_SCALE - 1) (V3.sub center (readV s mps)))]) mps = readV s mps := by
    rw [readV_append_left _ _ _ hmp7, readV_append_left _ _ _ hmp5,
      readV_append_left _ _ _ hmp3, readV_append_left _ _ _ hmp1,
      readV_append_left _ _ _ hmp]
  have g17 : readV ((((((s ++ [center]) ++ [(V3.sub center (readV s mps))]) ++ [(V3.smul (HOVER_SCALE - 1) (V3.sub center (readV s mps)))]) ++ [(V3.sub (readV s mps) (V3.smul (HOVER_SCALE - 1) (V3.sub center (readV s mps))))]) ++ [(V3.smul (HOVER_OVEREXTEND_SCALE - 1) (V3.sub center (readV s mps)))]) ++ [(readV s mps)]) ((((s ++ [center]) ++ [(V3.sub center (readV s mps))]) ++ [(V3.smul (HOVER_SCALE - 1) (V3.sub center (readV s mps)))]) ++ [(V3.sub (readV s mps) (V3.smul (HOVER_SCALE - 1) (V3.sub center (readV s mps))))]).length = (V3.smul (HOVER_OVEREXTEND_SCALE - 1) (V3.sub center (readV s mps))) := by
    rw [readV_append_left _ _ _ hb79]
    exact readV_concat_len ((((s ++ [center]) ++ [(V3.sub center (readV s mps))]) ++ [(V3.smul (HOVER_SCALE - 1) (V3.sub center (readV s mps)))]) ++ [(V3.sub (readV s mps) (V3.smul (HOVER_SCALE - 1) (V3.sub center (readV s mps))))]) (V3.smul (HOVER_OVEREXTEND_SCALE - 1) (V3.sub center (readV s mps)))
  have g19 : readV ((((((s ++ [center]) ++ [(V3.sub center (readV s mps))]) ++ [(V3.smul (HOVER_SCALE - 1) (V3.sub center (readV s mps)))]) ++ [(V3.sub (readV s mps) (V3.smul (HOVER_SCALE - 1) (V3.sub center (readV s mps))))]) ++ [(V3.smul (HOVER_OVEREXTEND_SCALE - 1) (V3.sub center (readV s mps)))]) ++ [(V3.sub (readV s mps) (V3.smul (HOVER_OVEREXTEND_SCALE - 1) (V3.sub center (readV s mps))))]) msc = readV s msc := by
    rw [readV_append_left _ _ _ hq9, readV_append_left _ _ _ hq7,
      readV_append_left _ _ _ hq5, readV_append_left _ _ _ hq3,
      readV_append_left _ _ _ hq1, readV_append_left _ _ _ hmsc]
  have g21 : readV ((((((s ++ [center]) ++ [(V3.sub center (readV s mps))]) ++ [(V3.smul (HOVER_SCALE - 1) (V3.sub center (readV s mps)))]) ++ [(V3.sub (readV s mps) (V3.smul (HOVER_SCALE - 1) (V3.sub center (readV s mps))))]) ++ [(V3.smul (HOVER_OVEREXTEND_SCALE - 1) (V3.sub center (readV s mps)))]) ++ [(V3.sub (readV s mps) (V3.smul (HOVER_OVEREXTEND_SCALE - 1) (V3.sub center (readV s mps))))]) (((s ++ [center]) ++ [(V3.sub center (readV s mps))]) ++ [(V3.smul (HOVER_SCALE - 1) (V3.sub center (readV s mps)))]).length = (V3.sub (readV s mps) (V3.smul (HOVER_SCALE - 1) (V3.sub center (readV s mps)))) := by
    rw [readV_append_left _ _ _ hb59, readV_append_left _ _ _ hb57]
    exact readV_concat_len (((s ++ [center]) ++ [(V3.sub center (readV s mps))]) ++ [(V3.smul (HOVER_SCALE - 1) (V3.sub center (readV s mps)))]) (V3.sub (readV s mps) (V3.smul (HOVER_SCALE - 1) (V3.sub center (readV s mps))))
  simp only [playHoverAnimation, hD, hP, Bool.false_eq_true, if_false, if_true,
    cloneV, allocV, vsubIntoRef, vmulInto]
  rw [g1, g2, g3, writeV_concat (s ++ [center]) center (V3.sub center (readV s mps)),
    readV_concat_len (s ++ [center]) (V3.sub center (readV s mps)),
    readV_concat_len ((s ++ [center]) ++ [(V3.sub center (readV s mps))]) (V3.sub center (readV s mps)),
    writeV_concat ((s ++ [center]) ++ [(V3.sub center (readV s mps))]) (V3.sub center (readV s mps)) (V3.smul (HOVER_SCALE - 1) (V3.sub center (readV s mps))),
    g8,
    readV_concat_len (((s ++ [center]) ++ [(V3.sub center (readV s mps))]) ++ [(V3.smul (HOVER_SCALE - 1) (V3.sub center (readV s mps)))]) (readV s mps),
    g10,
    writeV_concat (((s ++ [center]) ++ [(V3.sub center (readV s mps))]) ++ [(V3.smul (HOVER_SCALE - 1) (V3.sub center (readV s mps)))]) (readV s mps) (V3.sub (readV s mps) (V3.smul (HOVER_SCALE - 1) (V3.sub center (readV s mps)))),
    g12,
    readV_concat_len ((((s ++ [center]) ++ [(V3.sub center (readV s mps))]) ++ [(V3.smul (HOVER_SCALE - 1) (V3.sub center (readV s mps)))]) ++ [(V3.sub (readV s mps) (V3.smul (HOVER_SCALE - 1) (V3.sub center (readV s mps))))]) (V3.sub center (readV s mps)),
    writeV_concat ((((s ++ [center]) ++ [(V3.sub center (readV s mps))]) ++ [(V3.smul (HOVER_SCALE - 1) (V3.sub center (readV s mps)))]) ++ [(V3.sub (readV s mps) (V3.smul (HOVER_SCALE - 1) (V3.sub center (readV s mps))))]) (V3.sub center (readV s mps)) (V3.smul (HOVER_OVEREXTEND_SCALE - 1) (V3.sub center (readV s mps))),
    g15,
    readV_concat_len (((((s ++ [center]) ++ [(V3.sub center (readV s mps))]) ++ [(V3.smul (HOVER_SCALE - 1) (V3.sub center (readV s mps)))]) ++ [(V3.sub (readV s mps) (V3.smul (HOVER_SCALE - 1) (V3.sub center (readV s mps))))]) ++ [(V3.smul (HOVER_OVEREXTEND_SCALE - 1) (V3.sub center (readV s mps)))]) (readV s mps),
    g17,
    writeV_concat (((((s ++ [center]) ++ [(V3.sub center (readV s mps))]) ++ [(V3.smul (HOVER_SCALE - 1) (V3.sub center (readV s mps)))]) ++ [(V3.sub (readV s mps) (V3.smul (HOVER_SCALE - 1) (V3.sub center (readV s mps))))]) ++ [(V3.smul (HOVER_OVEREXTEND_SCALE - 1) (V3.sub center (readV s mps)))]) (readV s mps) (V3.sub (readV s mps) (V3.smul (HOVER_OVEREXTEND_SCALE - 1) (V3.sub center (readV s mps)))),
    g19,
    readV_concat_len (((((s ++ [center]) ++ [(V3.sub center (readV s mps))]) ++ [(V3.smul (HOVER_SCALE - 1) (V3.sub center (readV s mps)))]) ++ [(V3.sub (readV s mps) (V3.smul (HOVER_SCALE - 1) (V3.sub center (readV s mps))))]) ++ [(V3.smul (HOVER_OVEREXTEND_SCALE - 1) (V3.sub center (readV s mps)))]) (V3.sub (readV s mps) (V3.smul (HOVER_OVEREXTEND_SCALE - 1) (V3.sub center (readV s mps)))),
    g21]
  simp [List.append_assoc]

theorem playHover_tweens (s : VStore) (objName : String) (msc mps : Nat)
    (e m : Bool) (bb : Option V3) (hmsc : msc < s.length) (hmp : mps < s.length) :
    (playHoverAnimation s objName msc mps e m bb).2 =
      expectedTweens objName m bb (readV s msc) (readV s mps) e := by
  by_cases hD : strIncludes objName patCabinetDrawer = true
  · cases e
    · rw [playHover_drawer_exit s objName msc mps m bb hD]
      simp [expectedTweens, hD]
    · rw [playHover_drawer_enter s objName msc mps m bb hD]
      simp [expectedTweens, hD]
  · have hD2 : strIncludes objName patCabinetDrawer = false := by
      simpa using hD
    by_cases hP : strIncludes objName patPCube = true
    · cases e
      · rw [playHover_pcube_exit s objName msc mps m bb hD2 hP]
        simp [expectedTweens, hD2, hP]
      · rw [playHover_pcube_enter s objName msc mps m bb hD2 hP]
        simp [expectedTweens, hD2, hP]
    · have hP2 : strIncludes objName patPCube = false := by
        simpa using hP
      cases e
      · rw [playHover_default_exit s objName msc mps m bb hD2 hP2]
        simp [expectedTweens, hD2, hP2]
      · cases m
        · rw [playHover_default_enter_simple s objName msc mps false bb hD2 hP2 (Or.inl rfl)]
          simp [expectedTweens, hD2, hP2]
        · cases bb with
          | none =>
            rw [playHover_default_enter_simple s objName msc mps true Option.none hD2 hP2
              (Or.inr rfl)]
            simp [expectedTweens, hD2, hP2]
          | some center =>
            rw [playHover_default_enter_center s objName msc mps center hD2 hP2 hmsc hmp]
            simp [expectedTweens, hD2, hP2]

theorem playHover_preserves (s : VStore) (objName : String) (msc mps : Nat)
    (e m : Bool) (bb : Option V3) (hmsc : msc < s.length) (hmp : mps < s.length)
    (r : Nat) (hr : r < s.length) :
    readV (playHoverAnimation s objName msc mps e m bb).1 r = readV s r
    ∧ s.length ≤ (playHoverAnimation s objName msc mps e m bb).1.length := by
  by_cases hD : strIncludes objName patCabinetDrawer = true
  · cases e
    · rw [playHover_drawer_exit s objName msc mps m bb hD]
      exact ⟨rfl, Nat.le_refl _⟩
    · rw [playHover_drawer_enter s objName msc mps m bb hD]
      refine ⟨readV_append_left _ _ _ hr, by simp⟩
  · have hD2 : strIncludes objName patCabinetDrawer = false := by
      simpa using hD
    by_cases hP : strIncludes objName patPCube = true
    · cases e
      · rw [playHover_pcube_exit s objName msc mps m bb hD2 hP]
        exact ⟨rfl, Nat.le_refl _⟩
      · rw [playHover_pcube_enter s objName msc mps m bb hD2 hP]
        refine ⟨readV_append_left _ _ _ hr, by simp⟩
    · have hP2 : strIncludes objName patPCube = false := by
        simpa using hP
      cases e
      · rw [playHover_default_exit s objName msc mps m bb hD2 hP2]
        exact ⟨rfl, Nat.le_refl _⟩
      · cases m
        · rw [playHover_default_enter_simple s objName msc mps false bb hD2 hP2 (Or.inl rfl)]
          exact ⟨rfl, Nat.le_refl _⟩
        · cases bb with
          | none =>
            rw [playHover_default_enter_simple s objName msc mps true Option.none hD2 hP2
              (Or.inr rfl)]
            exact ⟨rfl, Nat.le_refl _⟩
          | some center =>
            rw [playHover_default_enter_center s objName msc mps center hD2 hP2 hmsc hmp]
            refine ⟨readV_append_left _ _ _ hr, by simp⟩

theorem applyTweens_preserves (o : ObjChannels) (ts : List Tween) (s : VStore) (c : Nat)
    (hc1 : c ≠ o.posRef) (hc2 : c ≠ o.scaleRef) :
    readV (ts.foldl (applyTween o) s) c = readV s c
    ∧ (ts.foldl (applyTween o) s).length = s.length := by
  induction ts generalizing s with
  | nil => exact ⟨rfl, rfl⟩
  | cons t rest ih =>
    have hstep1 : readV (applyTween o s t) c = readV s c := by
      cases ht : t.channel <;>
        simp [applyTween, ht, readV_write_ne _ _ _ _ (Ne.symm hc1),
          readV_write_ne _ _ _ _ (Ne.symm hc2)]
    have hstep2 : (applyTween o s t).length = s.length := by
      cases ht : t.channel <;> simp [applyTween, ht, writeV]
    obtain ⟨ih1, ih2⟩ := ih (applyTween o s t)
    exact ⟨by rw [List.foldl_cons, ih1, hstep1], by rw [List.foldl_cons, ih2, hstep2]⟩

theorem runTransitions_inv (objName : String) (o : ObjChannels) (msc mps : Nat)
    (m : Bool) (bb : Option V3) (bs : List Bool) (s : VStore)
    (hmsc : msc < s.length) (hmp : mps < s.length)
    (h1 : msc ≠ o.posRef) (h2 : msc ≠ o.scaleRef)
    (h3 : mps ≠ o.posRef) (h4 : mps ≠ o.scaleRef) :
    readV (runTransitions objName o msc mps m bb s bs).1 msc = readV s msc
    ∧ readV (runTransitions objName o msc mps m bb s bs).1 mps = readV s mps
    ∧ (runTransitions objName o msc mps m bb s bs).2 =
        bs.map (expectedTweens objName m bb (readV s msc) (readV s mps)) := by
  induction bs generalizing s with
  | nil => exact ⟨rfl, rfl, rfl⟩
  | cons b rest ih =>
    have hph := playHover_preserves s objName msc mps b m bb hmsc hmp
    obtain ⟨hpm, hlen⟩ := hph msc hmsc
    obtain ⟨hpp, -⟩ := hph mps hmp
    have htw := playHover_tweens s objName msc mps b m bb hmsc hmp
    obtain ⟨haM, halen⟩ := applyTweens_preserves o
      (playHoverAnimation s objName msc mps b m bb).2
      (playHoverAnimation s objName msc mps b m bb).1 msc h1 h2
    obtain ⟨haP, -⟩ := applyTweens_preserves o
      (playHoverAnimation s objName msc mps b m bb).2
      (playHoverAnimation s objName msc mps b m bb).1 mps h3 h4
    have hmsc2 : msc <
        ((playHoverAnimation s objName msc mps b m bb).2.foldl (applyTween o)
          (playHoverAnimation s objName msc mps b m bb).1).length := by
      rw [halen]
      omega
    have hmp2 : mps <
        ((playHoverAnimation s objName msc mps b m bb).2.foldl (applyTween o)
          (playHoverAnimation s objName msc mps b m bb).1).length := by
      rw [halen]
      omega
    obtain ⟨ih1, ih2, ih3⟩ := ih _ hmsc2 hmp2
    refine ⟨?_, ?_, ?_⟩
    · simp only [runTransitions, applyTransition]
      rw [ih1, haM, hpm]
    · simp only [runTransitions, applyTransition]
      rw [ih2, haP, hpp]
    · simp only [runTransitions, applyTransition, List.map_cons]
      rw [ih3, haM, haP, hpm, hpp, htw]

/-! ## Claim C3 -/

theorem captureMetadata_eq (s0 : VStore) (o : ObjChannels) (hp : o.posRef < s0.length) :
    captureMetadata s0 o =
      ((s0 ++ [readV s0 o.scaleRef]) ++ [readV s0 o.posRef],
        s0.length, (s0 ++ [readV s0 o.scaleRef]).length) := by
  simp only [captureMetadata, cloneV, allocV]
  rw [readV_append_left _ _ _ hp]

/-- Claim C3: for every node with attached metadata, after any sequence of
hover enter/exit transitions (each transition's tweens run to completion on the
object's transform channels), the stored rest pose — the `initialScale` and
`initialPosition` vectors cloned by `createHitbox` at classification time — is
identical to its captured value, and every transition's emitted tween targets
equal the rest-pose-relative profile `expectedTweens` of the captured rest
pose, the same on every repetition, i.e. offsets from the rest pose and never
cumulative. -/
theorem rest_pose_immutable (s0 : VStore) (o : ObjChannels) (objName : String)
    (m : Bool) (bb : Option V3) (bs : List Bool)
    (hp : o.posRef < s0.length) (hs : o.scaleRef < s0.length) :
    readV (runTransitions objName o (captureMetadata s0 o).2.1 (captureMetadata s0 o).2.2
        m bb (captureMetadata s0 o).1 bs).1 (captureMetadata s0 o).2.1
      = readV s0 o.scaleRef
    ∧ readV (runTransitions objName o (captureMetadata s0 o).2.1 (captureMetadata s0 o).2.2
        m bb (captureMetadata s0 o).1 bs).1 (captureMetadata s0 o).2.2
      = readV s0 o.posRef
    ∧ (runTransitions objName o (captureMetadata s0 o).2.1 (captureMetadata s0 o).2.2
        m bb (captureMetadata s0 o).1 bs).2
      = bs.map (expectedTweens objName m bb (readV s0 o.scaleRef) (readV s0 o.posRef)) := by
  rw [captureMetadata_eq s0 o hp]
  have hq : o.scaleRef < (s0 ++ [readV s0 o.scaleRef]).length := by
    simp only [List.length_append, List.length_cons, List.length_nil]
    omega
  have hmsc : s0.length < ((s0 ++ [readV s0 o.scaleRef]) ++ [readV s0 o.posRef]).length := by
    simp only [List.length_append, List.length_cons, List.length_nil]
    omega
  have hmps : (s0 ++ [readV s0 o.scaleRef]).length <
      ((s0 ++ [readV s0 o.scaleRef]) ++ [readV s0 o.posRef]).length := by
    simp only [List.length_append, List.length_cons, List.length_nil]
    omega
  have hsl : s0.length < (s0 ++ [readV s0 o.scaleRef]).length := by
    simp only [List.length_append, List.length_cons, List.length_nil]
    omega
  have e1 : readV ((s0 ++ [readV s0 o.scaleRef]) ++ [readV s0 o.posRef]) s0.length
      = readV s0 o.scaleRef := by
    rw [readV_append_left _ _ _ hsl]
    exact readV_concat_len s0 _
  have e2 : readV ((s0 ++ [readV s0 o.scaleRef]) ++ [readV s0 o.posRef])
      (s0 ++ [readV s0 o.scaleRef]).length = readV s0 o.posRef :=
    readV_concat_len (s0 ++ [readV s0 o.scaleRef]) _
  have d1 : s0.length ≠ o.posRef := by omega
  have d2 : s0.length ≠ o.scaleRef := by omega
  have d3 : (s0 ++ [readV s0 o.scaleRef]).length ≠ o.posRef := by
    simp only [List.length_append, List.length_cons, List.length_nil]
    omega
  have d4 : (s0 ++ [readV s0 o.scaleRef]).length ≠ o.scaleRef := by
    simp only [List.length_append, List.length_cons, List.length_nil]
    omega
  obtain ⟨r1, r2, r3⟩ := runTransitions_inv objName o s0.length
    (s0 ++ [readV s0 o.scaleRef]).length m bb bs
    ((s0 ++ [readV s0 o.scaleRef]) ++ [readV s0 o.posRef])
    hmsc hmps d1 d2 d3 d4
  exact ⟨by rw [r1, e1], by rw [r2, e2], by rw [r3, e1, e2]⟩

/-- Witness for C3: a two-cell object store, the default scale profile with a
bounding-box center, and the transition sequence enter, exit, enter. -/
theorem rest_pose_immutable_witness :
    readV (runTransitions ("computer_tower") ⟨0, 1⟩
        (captureMetadata [⟨1, 2, 3⟩, ⟨4, 5, 6⟩] ⟨0, 1⟩).2.1
        (captureMetadata [⟨1, 2, 3⟩, ⟨4, 5, 6⟩] ⟨0, 1⟩).2.2
        true (some ⟨7, 8, 9⟩)
        (captureMetadata [⟨1, 2, 3⟩, ⟨4, 5, 6⟩] ⟨0, 1⟩).1 [true, false, true]).1
      (captureMetadata [⟨1, 2, 3⟩, ⟨4, 5, 6⟩] ⟨0, 1⟩).2.1
      = readV [⟨1, 2, 3⟩, ⟨4, 5, 6⟩] 1
    ∧ readV (runTransitions ("computer_tower") ⟨0, 1⟩
        (captureMetadata [⟨1, 2, 3⟩, ⟨4, 5, 6⟩] ⟨0, 1⟩).2.1
        (captureMetadata [⟨1, 2, 3⟩, ⟨4, 5, 6⟩] ⟨0, 1⟩).2.2
        true (some ⟨7, 8, 9⟩)
        (captureMetadata [⟨1, 2, 3⟩, ⟨4, 5, 6⟩] ⟨0, 1⟩).1 [true, false, true]).1
      (captureMetadata [⟨1, 2, 3⟩, ⟨4, 5, 6⟩] ⟨0, 1⟩).2.2
      = readV [⟨1, 2, 3⟩, ⟨4, 5, 6⟩] 0 :=
  ⟨(rest_pose_immutable [⟨1, 2, 3⟩, ⟨4, 5, 6⟩] ⟨0, 1⟩ ("computer_tower")
      true (some ⟨7, 8, 9⟩) [true, false, true] (by decide) (by decide)).1,
   (rest_pose_immutable [⟨1, 2, 3⟩, ⟨4, 5, 6⟩] ⟨0, 1⟩ ("computer_tower")
      true (some ⟨7, 8, 9⟩) [true, false, true] (by decide) (by decide)).2.1⟩

/-! ## Claim C8 -/

/-- Claim C8: a hovered node named `cabinet_drawer_about` resolves to the
singleton group of that node alone (drawers are not a composite group, for any
registry contents), and its hover animation is a position translation along
the fixed local z axis: the enter tween targets rest position plus
`(0, 0, DRAWER_SLIDE_DISTANCE)` and the exit tween targets the rest position
itself, with no scale tween in either direction. -/
theorem drawer_about_singleton_translation (reg : List HMesh) (meta : HoverMetadata)
    (s : VStore) (msc mps : Nat) (m : Bool) (bb : Option V3)
    (hname : meta.objName = patDrawerAbout) :
    getGroupMetas reg (some meta) = [meta]
    ∧ (playHoverAnimation s meta.objName msc mps true m bb).2 =
        [⟨Channel.position, V3.add (readV s mps) ⟨0, 0, DRAWER_SLIDE_DISTANCE⟩⟩]
    ∧ (playHoverAnimation s meta.objName msc mps false m bb).2 =
        [⟨Channel.position, readV s mps⟩]
    ∧ (∀ t ∈ (playHoverAnimation s meta.objName msc mps true m bb).2,
        t.channel = Channel.position)
    ∧ (∀ t ∈ (playHoverAnimation s meta.objName msc mps false m bb).2,
        t.channel = Channel.position) := by
  have hD : strIncludes meta.objName patCabinetDrawer = true := by
    rw [hname]
    decide
  have hnc : strIncludes meta.objName patComputerGroup = false := by
    rw [hname]
    decide
  have hnb : strIncludes meta.objName patPhoneBase = false := by
    rw [hname]
    decide
  refine ⟨by simp [getGroupMetas, hnc, hnb], ?_, ?_, ?_, ?_⟩
  · rw [playHover_drawer_enter s meta.objName msc mps m bb hD]
  · rw [playHover_drawer_exit s meta.objName msc mps m bb hD]
  · rw [playHover_drawer_enter s meta.objName msc mps m bb hD]
    simp
  · rw [playHover_drawer_exit s meta.objName msc mps m bb hD]
    simp

/-- Witness for C8: the fixture drawer metadata in the three-prop registry,
over a two-cell store. -/
theorem drawer_about_singleton_translation_witness :
    getGroupMetas sceneReg (some drawerAboutMeta) = [drawerAboutMeta]
    ∧ (playHoverAnimation [⟨1, 2, 3⟩, ⟨4, 5, 6⟩] drawerAboutMeta.objName 0 1 true false
        Option.none).2 =
      [⟨Channel.position, V3.add (readV [⟨1, 2, 3⟩, ⟨4, 5, 6⟩] 1)
          ⟨0, 0, DRAWER_SLIDE_DISTANCE⟩⟩] :=
  ⟨(drawer_about_singleton_translation sceneReg drawerAboutMeta [⟨1, 2, 3⟩, ⟨4, 5, 6⟩]
      0 1 false Option.none rfl).1,
   (drawer_about_singleton_translation sceneReg drawerAboutMeta [⟨1, 2, 3⟩, ⟨4, 5, 6⟩]
      0 1 false Option.none rfl).2.1⟩
